import Mathlib

/-!
Shallow embedding of `src/loader/filetypes/PluginFile.js` (Phaser plugin loader
file type): the `PluginFile` constructor, its `onProcess` method, and the
`FileTypesManager.register('plugin', ...)` loader callback, together with the
host-environment state they mutate (the `window` global namespace,
`document.head`, and the record of `register(PluginManager)` invocations).

Parts of the repository that the source requires but that are not provided
(the base `File` constructor with its key check and url derivation, and the
Loader's `onProcessComplete` completion path) are modelled from the spec and
are marked `Modelled from the spec:` in their doc comments.
-/

deriving instance DecidableEq for Except

namespace Phaser

/-- A JavaScript value that can sit in a `window` namespace slot or be passed
as the `url` argument.  `plugin id registerThrows` is a callable/class value
exposing a `register` entry point (`registerThrows` records whether invoking
it throws); `fnNoRegister` is a callable without a `register` member (so
`.register(...)` raises a TypeError); `other` is a non-callable unrelated
value. -/
inductive WVal where
  | plugin (id : Nat) (registerThrows : Bool)
  | fnNoRegister (id : Nat)
  | other (id : Nat)
deriving DecidableEq, Repr

/-- `typeof v === 'function'` for the embedded values. -/
def WVal.isFunction : WVal → Bool
  | .plugin _ _ => true
  | .fnNoRegister _ => true
  | .other _ => false

/-- The `url` argument / config field: absent (`undefined`), a string locator,
or a live JavaScript value (the callable short-circuit path of the source). -/
inductive UrlArg where
  | undef
  | str (s : String)
  | val (v : WVal)
deriving DecidableEq, Repr

/-- `typeof url === 'function'` (source line 64). -/
def UrlArg.isFunction : UrlArg → Bool
  | .val v => v.isFunction
  | _ => false

/-- JavaScript runtime exceptions that the source can raise (it installs no
handler for any of them). -/
inductive JsErr where
  | typeErrorUndefined
  | typeErrorNotFunction
  | registerThrew (id : Nat)
  | typeErrorNoXhr
deriving DecidableEq, Repr

/-- An error escaping the `PluginFile` constructor: either the base `File`
constructor's invalid-key error, or an uncaught JavaScript exception from the
callable-url activation path. -/
inductive CtorErr where
  | configError
  | jsError (e : JsErr)
deriving DecidableEq, Repr

/-- The handle passed to `register`: the source always passes `PluginManager`. -/
inductive RegistryHandle where
  | pluginManager
deriving DecidableEq, Repr

/-- A `<script>` element as built by `onProcess` (source lines 94-98). -/
structure ScriptElem where
  language : String
  type : String
  defer : Bool
  text : String
deriving DecidableEq, Repr

/-- Host-environment state mutated by the source: the `window` namespace (an
association list, most recent binding first), the children appended to
`document.head`, and the ordered record of `register` invocations (plugin id
and argument). -/
structure Host where
  window : List (String × WVal)
  headScripts : List ScriptElem
  registerCalls : List (Nat × RegistryHandle)
deriving DecidableEq, Repr

/-- The empty host environment. -/
def host0 : Host := { window := [], headScripts := [], registerCalls := [] }

/-- Write `window[k] = v` (the new binding shadows any previous one). -/
def winSet (w : List (String × WVal)) (k : String) (v : WVal) :
    List (String × WVal) :=
  (k, v) :: w

/-- Read `window[k]` (`none` plays `undefined`). -/
def winGet (w : List (String × WVal)) (k : String) : Option WVal :=
  (w.find? (fun p => p.1 == k)).map (fun p => p.2)

/-- Evaluate `window[k].register(PluginManager)` against the value found at
the slot: an absent slot or a value without a callable `register` raises a
TypeError before any call happens; a `plugin` value has its `register` entry
point invoked (recorded in `registerCalls`), which may itself throw. -/
def invokeRegister (v : Option WVal) (h : Host) : Host × Option JsErr :=
  match v with
  | none => (h, some .typeErrorUndefined)
  | some (.other _) => (h, some .typeErrorNotFunction)
  | some (.fnNoRegister _) => (h, some .typeErrorNotFunction)
  | some (.plugin id t) =>
      ({ h with registerCalls := h.registerCalls ++ [(id, .pluginManager)] },
       if t then some (.registerThrew id) else none)

/-- The `PluginFileConfig` record (source typedef, lines 15-22): `key` may be
missing (`none`), `url` missing is `UrlArg.undef`, `extension` and
`xhrSettings` are optional.  `xhrSettings` is opaque and embedded as a `Nat`
tag. -/
structure PluginFileConfig where
  key : Option String
  url : UrlArg
  extension : Option String
  xhrSettings : Option Nat
deriving DecidableEq, Repr

/-- The `key` argument of the constructor: `undefined`, a plain string, or a
plain configuration object (the `IsPlainObject(key)` branch). -/
inductive KeyArg where
  | undef
  | str (s : String)
  | config (c : PluginFileConfig)
deriving DecidableEq, Repr

/-- The `fileConfig` record built by the constructor (source lines 70-78) and
handed to `File.call`. -/
structure FileConfig where
  type : String
  cache : Bool
  extension : String
  responseType : String
  key : Option String
  url : UrlArg
  xhrSettings : Option Nat
deriving DecidableEq, Repr

/-- Loader file states (`CONST.FILE_*`). -/
inductive FileState where
  | FILE_PENDING
  | FILE_LOADING
  | FILE_PROCESSING
  | FILE_COMPLETE
  | FILE_ERRORED
  | FILE_DESTROYED
deriving DecidableEq, Repr

/-- A constructed `PluginFile` unit.  `responseText` embeds
`this.xhrLoader.responseText`: `none` until a transfer has succeeded.
`data` is the script element built by `onProcess`. -/
structure PluginFile where
  key : String
  url : UrlArg
  xhrSettings : Option Nat
  fileConfig : FileConfig
  state : FileState
  responseText : Option String
  data : Option ScriptElem
deriving DecidableEq, Repr

/-- Modelled from the spec: the base `File` constructor (`../File`, not part
of the provided source).  Per the spec, construction "fails (reports a
configuration error to the caller) if `key` is missing or empty" (§4.1 /
§7 ConfigurationError); `url` is "optional, default = key + \x22.\x22 +
extension" (§4.1 / §6, matching the source's own doc comment, line 40); and a
freshly created unit starts in `Pending` (§3 lifecycle). -/
def File.init (fc : FileConfig) : Except CtorErr PluginFile :=
  match fc.key with
  | none => .error .configError
  | some k =>
      if k = "" then .error .configError
      else
        .ok {
          key := k
          url := match fc.url with
                 | .undef => .str (k ++ "." ++ fc.extension)
                 | u => u
          xhrSettings := fc.xhrSettings
          fileConfig := fc
          state := .FILE_PENDING
          responseText := none
          data := none }

/-- A JavaScript property key: an `undefined` key is coerced to the string
`"undefined"` by `window[key]`. -/
def jsKey (k : Option String) : String := k.getD "undefined"

/-- The `PluginFile` constructor (source lines 49-81).  Steps, in source
order: default `extension = 'js'`; if `key` is a plain object, extract
`key` / `url` / `xhrSettings` / `extension` from it; if the (possibly
extracted) `url` is a function, execute `window[key] = url` and
`window[key].register(PluginManager)` (an exception here escapes the
constructor); finally build `fileConfig` and call the base `File`
constructor. -/
def PluginFile.construct (keyArg : KeyArg) (url0 : UrlArg) (xhr0 : Option Nat)
    (h : Host) : Host × Except CtorErr PluginFile :=
  let key : Option String :=
    match keyArg with
    | .config c => c.key
    | .str s => some s
    | .undef => none
  let url : UrlArg :=
    match keyArg with
    | .config c => c.url
    | _ => url0
  let xhrSettings : Option Nat :=
    match keyArg with
    | .config c => c.xhrSettings
    | _ => xhr0
  let extension : String :=
    match keyArg with
    | .config c => c.extension.getD "js"
    | _ => "js"
  let fileConfig : FileConfig :=
    { type := "script"
      cache := false
      extension := extension
      responseType := "text"
      key := key
      url := url
      xhrSettings := xhrSettings }
  match url with
  | .val v =>
      if v.isFunction then
        let h1 := { h with window := winSet h.window (jsKey key) v }
        match invokeRegister (winGet h1.window (jsKey key)) h1 with
        | (h2, some e) => (h2, .error (.jsError e))
        | (h2, none) => (h2, File.init fileConfig)
      else (h, File.init fileConfig)
  | _ => (h, File.init fileConfig)

/-- The single-unit construction contract: the `Except` component of
`PluginFile.construct` does not depend on the ambient host (it only reads the
slot it has just written), so it can be taken at the empty host. -/
def constructP (keyArg : KeyArg) (url0 : UrlArg) (xhr0 : Option Nat) :
    Except CtorErr PluginFile :=
  (PluginFile.construct keyArg url0 xhr0 host0).2

/-- The outcome of `onProcess`: the updated unit and host, the uncaught
exception if one propagated out, and whether `onProcessComplete` notified the
driver. -/
structure ProcOut where
  file : PluginFile
  host : Host
  err : Option JsErr
  notifiedDriver : Bool
deriving DecidableEq, Repr

/-- `PluginFile.onProcess` (source lines 90-106).  `evalJs` is the host
engine's semantics for evaluating an appended script text: the sequence of
`window` bindings it performs.  Steps, in source order: set state to
`FILE_PROCESSING`; build the script element from `xhrLoader.responseText`
(reading it with no loader present raises a TypeError); append it to
`document.head`, which evaluates it synchronously; run
`window[this.key].register(PluginManager)` (an exception escapes: there is no
handler); on success run `onProcessComplete` (modelled from the spec:
"Transition Processing → Complete and notify the driver of completion",
§4.1). -/
def PluginFile.onProcess (evalJs : String → List (String × WVal))
    (f : PluginFile) (h : Host) : ProcOut :=
  let f1 := { f with state := FileState.FILE_PROCESSING }
  match f1.responseText with
  | none => { file := f1, host := h, err := some .typeErrorNoXhr, notifiedDriver := false }
  | some text =>
      let elem : ScriptElem :=
        { language := "javascript", type := "text/javascript", defer := false, text := text }
      let f2 := { f1 with data := some elem }
      let h1 := { h with
                  window := (evalJs text).foldl (fun w p => winSet w p.1 p.2) h.window
                  headScripts := h.headScripts ++ [elem] }
      match invokeRegister (winGet h1.window f2.key) h1 with
      | (h2, some e) => { file := f2, host := h2, err := some e, notifiedDriver := false }
      | (h2, none) =>
          { file := { f2 with state := FileState.FILE_COMPLETE }
            host := h2
            err := none
            notifiedDriver := true }

/-- The loader's view: the host plus the queue of files added via `addFile`. -/
structure LoaderState where
  host : Host
  queue : List PluginFile
deriving DecidableEq, Repr

/-- `this.addFile(file)` — enqueue a constructed unit. -/
def addFile (ls : LoaderState) (f : PluginFile) : LoaderState :=
  { ls with queue := ls.queue ++ [f] }

/-- The non-array branch of the `FileTypesManager.register('plugin', ...)`
callback (source lines 177-180): construct one unit and enqueue it; a
constructor exception propagates (returned as `some err`) and nothing is
enqueued. -/
def loadPluginSingle (ls : LoaderState) (keyArg : KeyArg) (url : UrlArg)
    (xhr : Option Nat) : LoaderState × Option CtorErr :=
  match PluginFile.construct keyArg url xhr ls.host with
  | (h', .ok f) => (addFile { ls with host := h' } f, none)
  | (h', .error e) => ({ ls with host := h' }, some e)

/-- The array branch of the plugin loader callback (source lines 169-176):
for each configuration object in order, construct a unit from it alone and
enqueue it; a constructor exception aborts the loop. -/
def loadPluginBatch (ls : LoaderState) :
    List PluginFileConfig → LoaderState × Option CtorErr
  | [] => (ls, none)
  | c :: rest =>
      match loadPluginSingle ls (.config c) .undef none with
      | (ls', none) => loadPluginBatch ls' rest
      | (ls', some e) => (ls', some e)

/-! ### Concrete inputs for witnesses and counterexamples -/

/-- Concrete unit for the C1 witness. -/
def c1File : PluginFile :=
  { key := "fx1", url := .str "fx1.js", xhrSettings := none,
    fileConfig := { type := "script", cache := false, extension := "js",
                    responseType := "text", key := some "fx1", url := .str "fx1.js",
                    xhrSettings := none },
    state := .FILE_LOADING, responseText := some "plugin code", data := none }

/-- Script semantics for the C1 witness: the payload binds `window.fx1`. -/
def c1Eval : String → List (String × WVal) := fun _ => [("fx1", .plugin 0 false)]

/-- Concrete unit for the C2 counterexample. -/
def c2File : PluginFile :=
  { key := "fx2", url := .str "plugins/fx2.min.js", xhrSettings := none,
    fileConfig := { type := "script", cache := false, extension := "js",
                    responseType := "text", key := some "fx2",
                    url := .str "plugins/fx2.min.js", xhrSettings := none },
    state := .FILE_LOADING, responseText := some "throwing plugin", data := none }

/-- Script semantics for the C2 counterexample: the payload binds `window.fx2`
to a plugin whose `register` throws. -/
def c2Eval : String → List (String × WVal) := fun _ => [("fx2", .plugin 3 true)]

/-- Concrete unit for the C3 counterexample. -/
def c3File : PluginFile :=
  { key := "fx4", url := .str "fx4.js", xhrSettings := none,
    fileConfig := { type := "script", cache := false, extension := "js",
                    responseType := "text", key := some "fx4", url := .str "fx4.js",
                    xhrSettings := none },
    state := .FILE_LOADING, responseText := some "plugin code", data := none }

/-- Script semantics for the C3 counterexample. -/
def c3Eval : String → List (String × WVal) := fun _ => [("fx4", .plugin 4 false)]

/-- The key the constructor effectively uses: extracted from the config when
the `key` argument is a plain object, the argument itself otherwise. -/
def KeyArg.effKey : KeyArg → Option String
  | .config c => c.key
  | .str s => some s
  | .undef => none

/-- The url the constructor effectively uses. -/
def KeyArg.effUrl : KeyArg → UrlArg → UrlArg
  | .config c, _ => c.url
  | _, u => u

/-- An empty-key configuration for the C4 amended witness. -/
def c4cfg : PluginFileConfig :=
  { key := some "", url := .undef, extension := none, xhrSettings := none }

/-- An empty loader state. -/
def ls0 : LoaderState := { host := host0, queue := [] }

/-- A host whose `window.fx` slot is already bound to an unrelated value. -/
def h6 : Host :=
  { window := [("fx", .other 99)], headScripts := [], registerCalls := [] }

/-- Two concrete configurations for the C8 witness. -/
def c8cfgs : List PluginFileConfig :=
  [{ key := some "p1", url := .undef, extension := none, xhrSettings := none },
   { key := some "p2", url := .str "plugins/p2.min.js", extension := none,
     xhrSettings := none }]

/-- The unit the C9 witness constructs. -/
def c9file : PluginFile :=
  { key := "wk", url := .str "wk.js", xhrSettings := none,
    fileConfig := { type := "script", cache := false, extension := "js",
                    responseType := "text", key := some "wk", url := .undef,
                    xhrSettings := none },
    state := .FILE_PENDING, responseText := none, data := none }

/-- The unit the C10 witness constructs. -/
def c10file : PluginFile :=
  { key := "pos", url := .str "pos.js", xhrSettings := none,
    fileConfig := { type := "script", cache := false, extension := "js",
                    responseType := "text", key := some "pos", url := .undef,
                    xhrSettings := none },
    state := .FILE_PENDING, responseText := none, data := none }

/-! ### Helper lemmas -/

theorem winGet_winSet_self (w : List (String × WVal)) (k : String) (v : WVal) :
    winGet (winSet w k v) k = some v := by
  simp [winGet, winSet, List.find?]

/-! ### C1 -/

/-- C1 (confirmed; `onProcessComplete` modelled from the spec): for a unit
whose transfer succeeded (`responseText` present), if evaluating the payload
leaves the unit's `key` bound in the global namespace to a plugin value whose
`register` does not throw, then `onProcess` appends the payload to
`document.head` as a synchronously-evaluated, defer-false script, invokes
that value's `register` entry point exactly once with the `PluginManager`
handle, ends in state `FILE_COMPLETE`, and notifies the driver. -/
theorem C1_onProcess_success (evalJs : String → List (String × WVal))
    (f : PluginFile) (h : Host) (text : String) (id : Nat)
    (hresp : f.responseText = some text)
    (hbound : winGet ((evalJs text).foldl (fun w p => winSet w p.1 p.2) h.window) f.key
        = some (.plugin id false)) :
    (f.onProcess evalJs h).file.state = .FILE_COMPLETE ∧
    (f.onProcess evalJs h).notifiedDriver = true ∧
    (f.onProcess evalJs h).err = none ∧
    (f.onProcess evalJs h).host.headScripts
      = h.headScripts ++ [⟨"javascript", "text/javascript", false, text⟩] ∧
    (f.onProcess evalJs h).host.window
      = (evalJs text).foldl (fun w p => winSet w p.1 p.2) h.window ∧
    (f.onProcess evalJs h).host.registerCalls
      = h.registerCalls ++ [(id, .pluginManager)] ∧
    (f.onProcess evalJs h).file.data
      = some ⟨"javascript", "text/javascript", false, text⟩ := by
  simp only [PluginFile.onProcess, hresp, hbound, invokeRegister]
  simp

/-- Witness for C1 at a concrete unit, payload and host. -/
theorem C1_witness :
    c1File.responseText = some "plugin code" ∧
    winGet ((c1Eval "plugin code").foldl (fun w p => winSet w p.1 p.2) host0.window)
        c1File.key = some (.plugin 0 false) ∧
    ((c1File.onProcess c1Eval host0).file.state = .FILE_COMPLETE ∧
     (c1File.onProcess c1Eval host0).notifiedDriver = true ∧
     (c1File.onProcess c1Eval host0).err = none ∧
     (c1File.onProcess c1Eval host0).host.headScripts
       = host0.headScripts ++ [⟨"javascript", "text/javascript", false, "plugin code"⟩] ∧
     (c1File.onProcess c1Eval host0).host.window
       = (c1Eval "plugin code").foldl (fun w p => winSet w p.1 p.2) host0.window ∧
     (c1File.onProcess c1Eval host0).host.registerCalls
       = host0.registerCalls ++ [(0, .pluginManager)] ∧
     (c1File.onProcess c1Eval host0).file.data
       = some ⟨"javascript", "text/javascript", false, "plugin code"⟩) :=
  ⟨rfl, by decide, C1_onProcess_success c1Eval c1File host0 "plugin code" 0 rfl (by decide)⟩

/-! ### C2 -/

/-- C2 counterexample: with a payload whose `register` throws, `onProcess`
lets the exception escape and the unit stays in `FILE_PROCESSING` — it does
not transition to `FILE_ERRORED` as the claim states. -/
theorem C2_counterexample :
    (c2File.onProcess c2Eval host0).err = some (.registerThrew 3) ∧
    (c2File.onProcess c2Eval host0).file.state = .FILE_PROCESSING ∧
    (c2File.onProcess c2Eval host0).file.state ≠ .FILE_ERRORED := by
  decide

/-- C2 amended: if any step of `onProcess` throws, the exception propagates
out unhandled (the source installs no handler): the unit remains in
`FILE_PROCESSING` — transitioning neither to `FILE_ERRORED` nor to
`FILE_COMPLETE` — no structured error is recorded on the unit, and the driver
is not notified of completion. -/
theorem C2_amended_stays_processing (evalJs : String → List (String × WVal))
    (f : PluginFile) (h : Host) (e : JsErr)
    (herr : (f.onProcess evalJs h).err = some e) :
    (f.onProcess evalJs h).file.state = .FILE_PROCESSING ∧
    (f.onProcess evalJs h).file.state ≠ .FILE_ERRORED ∧
    (f.onProcess evalJs h).file.state ≠ .FILE_COMPLETE ∧
    (f.onProcess evalJs h).notifiedDriver = false := by
  unfold PluginFile.onProcess at herr ⊢
  cases hr : f.responseText with
  | none => simp [hr]
  | some text =>
      simp only [hr] at herr ⊢
      cases hw : winGet ((evalJs text).foldl (fun w p => winSet w p.1 p.2) h.window) f.key with
      | none => simp [invokeRegister, hw]
      | some v =>
          cases v with
          | plugin id t =>
              cases t with
              | false => simp [invokeRegister, hw] at herr
              | true => simp [invokeRegister, hw]
          | fnNoRegister id => simp [invokeRegister, hw]
          | other id => simp [invokeRegister, hw]

/-- Witness for the amended C2 at a concrete throwing payload. -/
theorem C2_amended_witness :
    (c2File.onProcess c2Eval host0).err = some (.registerThrew 3) ∧
    ((c2File.onProcess c2Eval host0).file.state = .FILE_PROCESSING ∧
     (c2File.onProcess c2Eval host0).file.state ≠ .FILE_ERRORED ∧
     (c2File.onProcess c2Eval host0).file.state ≠ .FILE_COMPLETE ∧
     (c2File.onProcess c2Eval host0).notifiedDriver = false) :=
  ⟨by decide, C2_amended_stays_processing c2Eval c2File host0 (.registerThrew 3) (by decide)⟩

/-! ### C3 -/

/-- C3 counterexample: after a first `onProcess` completes the unit
(`FILE_COMPLETE`, one `register` call), running `onProcess` again on the
already-`Complete` unit re-invokes `register` — two invocations are recorded,
refuting at-most-once activation at the unit level. -/
theorem C3_counterexample :
    (c3File.onProcess c3Eval host0).file.state = .FILE_COMPLETE ∧
    (c3File.onProcess c3Eval host0).host.registerCalls = [(4, .pluginManager)] ∧
    ((c3File.onProcess c3Eval host0).file.onProcess c3Eval
        (c3File.onProcess c3Eval host0).host).host.registerCalls
      = [(4, .pluginManager), (4, .pluginManager)] := by
  decide

/-- C3 amended: `onProcess` contains no state guard and performs activation
unconditionally — invoked on a unit already in `FILE_COMPLETE` or
`FILE_ERRORED` whose payload binds a plugin value at its key, it invokes
`register` again; at-most-once activation therefore rests entirely on the
driver calling `process()` at most once per unit. -/
theorem C3_amended_reinvokes (evalJs : String → List (String × WVal))
    (f : PluginFile) (h : Host) (text : String) (id : Nat) (t : Bool)
    (_hstate : f.state = .FILE_COMPLETE ∨ f.state = .FILE_ERRORED)
    (hresp : f.responseText = some text)
    (hbound : winGet ((evalJs text).foldl (fun w p => winSet w p.1 p.2) h.window) f.key
        = some (.plugin id t)) :
    (f.onProcess evalJs h).host.registerCalls
      = h.registerCalls ++ [(id, .pluginManager)] := by
  unfold PluginFile.onProcess
  simp only [hresp, hbound, invokeRegister]
  cases t <;> simp

/-! ### C4 -/

/-- C4 counterexample: constructing with an empty key and a callable url
whose `register` lookup throws fails with the propagated TypeError — not with
the configuration error the claim requires — because the callable-activation
path (source lines 63-68) runs before the base constructor's key check. -/
theorem C4_counterexample :
    (PluginFile.construct (.str "") (.val (.fnNoRegister 0)) none host0).2
      = .error (.jsError .typeErrorNotFunction) ∧
    (PluginFile.construct (.str "") (.val (.fnNoRegister 0)) none host0).2
      ≠ .error .configError := by
  decide

/-- With a missing or empty effective key, the constructor always fails; the
error is the configuration error whenever the effective url is not callable
(a callable url may throw its own exception first). -/
theorem construct_keyBad (k : KeyArg) (u : UrlArg) (x : Option Nat) (h : Host)
    (hk : k.effKey = none ∨ k.effKey = some "") :
    (∃ e, (PluginFile.construct k u x h).2 = .error e) ∧
    ((k.effUrl u).isFunction = false →
      (PluginFile.construct k u x h).2 = .error .configError) := by
  have hinit : ∀ fc : FileConfig, fc.key = none ∨ fc.key = some "" →
      File.init fc = .error .configError := by
    intro fc hfc
    rcases hfc with hfc | hfc <;> simp [File.init, hfc]
  cases k with
  | undef =>
      cases u with
      | undef => exact ⟨⟨.configError, by simp [PluginFile.construct, hinit]⟩,
                        fun _ => by simp [PluginFile.construct, hinit]⟩
      | str s => exact ⟨⟨.configError, by simp [PluginFile.construct, hinit]⟩,
                        fun _ => by simp [PluginFile.construct, hinit]⟩
      | val v =>
          cases v with
          | plugin id t =>
              cases t with
              | false =>
                  refine ⟨⟨.configError, ?_⟩, fun _ => ?_⟩ <;>
                    simp [PluginFile.construct, WVal.isFunction, invokeRegister,
                          winGet_winSet_self, hinit]
              | true =>
                  refine ⟨⟨.jsError (.registerThrew id), ?_⟩, fun hfn => ?_⟩
                  · simp [PluginFile.construct, WVal.isFunction, invokeRegister,
                          winGet_winSet_self]
                  · simp [KeyArg.effUrl, UrlArg.isFunction, WVal.isFunction] at hfn
          | fnNoRegister id =>
              refine ⟨⟨.jsError .typeErrorNotFunction, ?_⟩, fun hfn => ?_⟩
              · simp [PluginFile.construct, WVal.isFunction, invokeRegister,
                      winGet_winSet_self]
              · simp [KeyArg.effUrl, UrlArg.isFunction, WVal.isFunction] at hfn
          | other id =>
              exact ⟨⟨.configError, by
                        simp [PluginFile.construct, WVal.isFunction, hinit]⟩,
                     fun _ => by simp [PluginFile.construct, WVal.isFunction, hinit]⟩
  | str s =>
      have hs : s = "" := by
        rcases hk with hk | hk
        · exact absurd hk (by simp [KeyArg.effKey])
        · simpa [KeyArg.effKey] using hk
      subst hs
      cases u with
      | undef => exact ⟨⟨.configError, by simp [PluginFile.construct, hinit]⟩,
                        fun _ => by simp [PluginFile.construct, hinit]⟩
      | str s2 => exact ⟨⟨.configError, by simp [PluginFile.construct, hinit]⟩,
                         fun _ => by simp [PluginFile.construct, hinit]⟩
      | val v =>
          cases v with
          | plugin id t =>
              cases t with
              | false =>
                  refine ⟨⟨.configError, ?_⟩, fun _ => ?_⟩ <;>
                    simp [PluginFile.construct, WVal.isFunction, invokeRegister,
                          winGet_winSet_self, hinit]
              | true =>
                  refine ⟨⟨.jsError (.registerThrew id), ?_⟩, fun hfn => ?_⟩
                  · simp [PluginFile.construct, WVal.isFunction, invokeRegister,
                          winGet_winSet_self]
                  · simp [KeyArg.effUrl, UrlArg.isFunction, WVal.isFunction] at hfn
          | fnNoRegister id =>
              refine ⟨⟨.jsError .typeErrorNotFunction, ?_⟩, fun hfn => ?_⟩
              · simp [PluginFile.construct, WVal.isFunction, invokeRegister,
                      winGet_winSet_self]
              · simp [KeyArg.effUrl, UrlArg.isFunction, WVal.isFunction] at hfn
          | other id =>
              exact ⟨⟨.configError, by
                        simp [PluginFile.construct, WVal.isFunction, hinit]⟩,
                     fun _ => by simp [PluginFile.construct, WVal.isFunction, hinit]⟩
  | config c =>
      have hc : c.key = none ∨ c.key = some "" := by
        simpa [KeyArg.effKey] using hk
      cases hu : c.url with
      | undef => exact ⟨⟨.configError, by simp [PluginFile.construct, hu, hinit, hc]⟩,
                        fun _ => by simp [PluginFile.construct, hu, hinit, hc]⟩
      | str s2 => exact ⟨⟨.configError, by simp [PluginFile.construct, hu, hinit, hc]⟩,
                         fun _ => by simp [PluginFile.construct, hu, hinit, hc]⟩
      | val v =>
          cases v with
          | plugin id t =>
              cases t with
              | false =>
                  refine ⟨⟨.configError, ?_⟩, fun _ => ?_⟩ <;>
                    simp [PluginFile.construct, hu, WVal.isFunction, invokeRegister,
                          winGet_winSet_self, hinit, hc]
              | true =>
                  refine ⟨⟨.jsError (.registerThrew id), ?_⟩, fun hfn => ?_⟩
                  · simp [PluginFile.construct, hu, WVal.isFunction, invokeRegister,
                          winGet_winSet_self]
                  · simp [KeyArg.effUrl, hu, UrlArg.isFunction, WVal.isFunction] at hfn
          | fnNoRegister id =>
              refine ⟨⟨.jsError .typeErrorNotFunction, ?_⟩, fun hfn => ?_⟩
              · simp [PluginFile.construct, hu, WVal.isFunction, invokeRegister,
                      winGet_winSet_self]
              · simp [KeyArg.effUrl, hu, UrlArg.isFunction, WVal.isFunction] at hfn
          | other id =>
              exact ⟨⟨.configError, by
                        simp [PluginFile.construct, hu, WVal.isFunction, hinit, hc]⟩,
                     fun _ => by simp [PluginFile.construct, hu, WVal.isFunction, hinit, hc]⟩

/-- C4 amended: with a missing or empty key, construction always fails
synchronously and no unit is enqueued; the reported error is the
configuration error except when the supplied url is a callable whose
`register` invocation throws first, in which case that exception is what
reaches the caller. -/
theorem C4_amended_fails_nothing_queued (k : KeyArg) (u : UrlArg) (x : Option Nat)
    (ls : LoaderState) (hk : k.effKey = none ∨ k.effKey = some "") :
    (loadPluginSingle ls k u x).1.queue = ls.queue ∧
    (loadPluginSingle ls k u x).2.isSome = true ∧
    ((k.effUrl u).isFunction = false →
      (loadPluginSingle ls k u x).2 = some .configError) := by
  obtain ⟨⟨e, he⟩, hcfg⟩ := construct_keyBad k u x ls.host hk
  rcases hc : PluginFile.construct k u x ls.host with ⟨h', r⟩
  rw [hc] at he hcfg
  simp only at he hcfg
  subst he
  refine ⟨?_, ?_, fun hfn => ?_⟩
  · simp [loadPluginSingle, hc]
  · simp [loadPluginSingle, hc]
  · have := hcfg hfn
    have he2 : e = CtorErr.configError := by
      exact Except.error.inj this
    subst he2
    simp [loadPluginSingle, hc]

/-- Witness for the amended C4 at a concrete empty-key config. -/
theorem C4_amended_witness :
    (KeyArg.effKey (.config c4cfg) = none ∨ KeyArg.effKey (.config c4cfg) = some "") ∧
    ((loadPluginSingle ls0 (.config c4cfg) .undef none).1.queue = ls0.queue ∧
     (loadPluginSingle ls0 (.config c4cfg) .undef none).2.isSome = true ∧
     ((KeyArg.effUrl (.config c4cfg) .undef).isFunction = false →
       (loadPluginSingle ls0 (.config c4cfg) .undef none).2 = some .configError)) :=
  ⟨Or.inr rfl,
   C4_amended_fails_nothing_queued (.config c4cfg) .undef none ls0 (Or.inr rfl)⟩

/-- Witness for the amended C3: a second `onProcess` on the completed unit. -/
theorem C3_amended_witness :
    (c3File.onProcess c3Eval host0).file.state = .FILE_COMPLETE ∧
    ((c3File.onProcess c3Eval host0).file.onProcess c3Eval
        (c3File.onProcess c3Eval host0).host).host.registerCalls
      = (c3File.onProcess c3Eval host0).host.registerCalls ++ [(4, .pluginManager)] :=
  ⟨by decide,
   C3_amended_reinvokes c3Eval (c3File.onProcess c3Eval host0).file
     (c3File.onProcess c3Eval host0).host "plugin code" 4 false
     (Or.inl (by decide)) (by decide) (by decide)⟩

/-! ### C5 -/

/-- C5 counterexample: constructing with key `"fx3"` and a live callable
value in place of a locator does invoke `register` immediately, but the
resulting unit is in `FILE_PENDING`, not `FILE_COMPLETE` — the constructor
falls through to the ordinary pending path instead of short-circuiting. -/
theorem C5_counterexample :
    (PluginFile.construct (.str "fx3") (.val (.plugin 7 false)) none host0).1.registerCalls
      = [(7, .pluginManager)] ∧
    ((PluginFile.construct (.str "fx3") (.val (.plugin 7 false)) none host0).2.toOption.map
        PluginFile.state) = some .FILE_PENDING ∧
    ((PluginFile.construct (.str "fx3") (.val (.plugin 7 false)) none host0).2.toOption.map
        PluginFile.state) ≠ some .FILE_COMPLETE := by
  decide

/-- C5 amended: with a callable value supplied in place of a locator (and a
non-empty key), the constructor immediately writes the value to the `window`
slot named by the key and invokes its `register` entry point once with the
registry handle; the unit is then nevertheless constructed as an ordinary
pending unit — state `FILE_PENDING`, the callable retained as its url —
rather than going directly to `Complete`. -/
theorem C5_amended_activates_but_pending (k : String) (id : Nat) (x : Option Nat)
    (h : Host) (hk : k ≠ "") :
    (PluginFile.construct (.str k) (.val (.plugin id false)) x h).1.registerCalls
      = h.registerCalls ++ [(id, .pluginManager)] ∧
    winGet (PluginFile.construct (.str k) (.val (.plugin id false)) x h).1.window k
      = some (.plugin id false) ∧
    ((PluginFile.construct (.str k) (.val (.plugin id false)) x h).2.toOption.map
        PluginFile.state) = some .FILE_PENDING ∧
    ((PluginFile.construct (.str k) (.val (.plugin id false)) x h).2.toOption.map
        PluginFile.url) = some (.val (.plugin id false)) := by
  simp [PluginFile.construct, WVal.isFunction, invokeRegister, winGet_winSet_self,
        File.init, jsKey, hk, Except.toOption]

/-- Witness for the amended C5 at key `"fx3"`. -/
theorem C5_amended_witness :
    "fx3" ≠ "" ∧
    ((PluginFile.construct (.str "fx3") (.val (.plugin 9 false)) none host0).1.registerCalls
       = host0.registerCalls ++ [(9, .pluginManager)] ∧
     winGet (PluginFile.construct (.str "fx3") (.val (.plugin 9 false)) none host0).1.window
        "fx3" = some (.plugin 9 false) ∧
     ((PluginFile.construct (.str "fx3") (.val (.plugin 9 false)) none host0).2.toOption.map
        PluginFile.state) = some .FILE_PENDING ∧
     ((PluginFile.construct (.str "fx3") (.val (.plugin 9 false)) none host0).2.toOption.map
        PluginFile.url) = some (.val (.plugin 9 false))) :=
  ⟨by decide,
   C5_amended_activates_but_pending "fx3" 9 none host0 (by decide)⟩

/-! ### C6 -/

/-- C6 counterexample: with the slot `"fx"` already bound to an unrelated
value, construction with a callable url succeeds (no collision error of any
kind is reported — the code has no `NamespaceCollisionError` at all) and the
slot is simply overwritten with the new value. -/
theorem C6_counterexample :
    winGet h6.window "fx" = some (.other 99) ∧
    ((PluginFile.construct (.str "fx") (.val (.plugin 1 false)) none h6).2.toOption.map
        PluginFile.state).isSome = true ∧
    winGet (PluginFile.construct (.str "fx") (.val (.plugin 1 false)) none h6).1.window "fx"
      = some (.plugin 1 false) := by
  decide

/-- C6 amended: the core performs no collision detection: even when the
namespace slot named by the key is already bound to an unrelated value, the
constructor's callable path overwrites the slot unconditionally and
construction succeeds without reporting any error (no distinct
collision error exists in the code). -/
theorem C6_amended_no_collision_check (k : String) (id : Nat) (x : Option Nat)
    (h : Host) (v : WVal) (hk : k ≠ "")
    (_hpre : winGet h.window k = some v) :
    ((PluginFile.construct (.str k) (.val (.plugin id false)) x h).2.toOption.map
        PluginFile.state).isSome = true ∧
    winGet (PluginFile.construct (.str k) (.val (.plugin id false)) x h).1.window k
      = some (.plugin id false) := by
  simp [PluginFile.construct, WVal.isFunction, invokeRegister, winGet_winSet_self,
        File.init, jsKey, hk, Except.toOption]

/-- Witness for the amended C6 over the pre-bound host `h6`. -/
theorem C6_amended_witness :
    "fx" ≠ "" ∧ winGet h6.window "fx" = some (.other 99) ∧
    (((PluginFile.construct (.str "fx") (.val (.plugin 1 false)) none h6).2.toOption.map
        PluginFile.state).isSome = true ∧
     winGet (PluginFile.construct (.str "fx") (.val (.plugin 1 false)) none h6).1.window "fx"
       = some (.plugin 1 false)) :=
  ⟨by decide, by decide,
   C6_amended_no_collision_check "fx" 1 none h6 (.other 99) (by decide) (by decide)⟩

/-! ### C7 -/

/-- C7 (confirmed; the url derivation lives in the spec-modelled base `File`
constructor, matching the source's own doc comment): a configuration with
only `key` set (url absent) yields a unit whose locator is
`key ++ "." ++ extension`, with `extension` defaulting to `"js"` and
overridable through the configuration's `extension` field. -/
theorem C7_url_derivation (k : String) (e : Option String) (x : Option Nat)
    (h : Host) (hk : k ≠ "") :
    ((PluginFile.construct
        (.config { key := some k, url := .undef, extension := e, xhrSettings := x })
        .undef none h).2.toOption.map PluginFile.url)
      = some (.str (k ++ "." ++ e.getD "js")) := by
  simp [PluginFile.construct, File.init, hk, Except.toOption]

/-- Witness for C7: key `"alien"` with no url and no extension override
derives the locator `"alien.js"`. -/
theorem C7_witness :
    "alien" ≠ "" ∧
    ((PluginFile.construct
        (.config { key := some "alien", url := .undef, extension := none, xhrSettings := none })
        .undef none host0).2.toOption.map PluginFile.url)
      = some (.str "alien.js") := by
  refine ⟨by decide, ?_⟩
  have h := C7_url_derivation "alien" none none host0 (by decide)
  simpa using h

/-! ### C8 -/

/-- The `Except` component of the constructor does not depend on the ambient
host: the only host read is of the slot the constructor has just written. -/
theorem construct_snd (k : KeyArg) (u : UrlArg) (x : Option Nat) (h : Host) :
    (PluginFile.construct k u x h).2 = constructP k u x := by
  rcases k with _ | s | c
  · rcases u with _ | s2 | v
    · rfl
    · rfl
    · rcases v with ⟨id, t⟩ | id | id
      · cases t <;>
          simp [PluginFile.construct, constructP, WVal.isFunction, invokeRegister,
                winGet_winSet_self, host0]
      · simp [PluginFile.construct, constructP, WVal.isFunction, invokeRegister,
              winGet_winSet_self, host0]
      · rfl
  · rcases u with _ | s2 | v
    · rfl
    · rfl
    · rcases v with ⟨id, t⟩ | id | id
      · cases t <;>
          simp [PluginFile.construct, constructP, WVal.isFunction, invokeRegister,
                winGet_winSet_self, host0]
      · simp [PluginFile.construct, constructP, WVal.isFunction, invokeRegister,
              winGet_winSet_self, host0]
      · rfl
  · rcases hu : c.url with _ | s2 | v
    · simp [PluginFile.construct, constructP, hu, host0]
    · simp [PluginFile.construct, constructP, hu, host0]
    · rcases v with ⟨id, t⟩ | id | id
      · cases t <;>
          simp [PluginFile.construct, constructP, hu, WVal.isFunction, invokeRegister,
                winGet_winSet_self, host0]
      · simp [PluginFile.construct, constructP, hu, WVal.isFunction, invokeRegister,
              winGet_winSet_self, host0]
      · simp [PluginFile.construct, constructP, hu, WVal.isFunction, host0]

/-- C8 (confirmed): the batch form applied to a list of configuration
objects, each of which singly constructs successfully, enqueues exactly one
unit per configuration, in order, and each enqueued unit is exactly the
single-unit construction of its own configuration. -/
theorem C8_batch (cfgs : List PluginFileConfig) (ls : LoaderState)
    (hok : ∀ c ∈ cfgs, (constructP (.config c) .undef none).toOption.isSome = true) :
    (loadPluginBatch ls cfgs).2 = none ∧
    (loadPluginBatch ls cfgs).1.queue
      = ls.queue ++ cfgs.filterMap (fun c => (constructP (.config c) .undef none).toOption) ∧
    (cfgs.filterMap (fun c => (constructP (.config c) .undef none).toOption)).length
      = cfgs.length := by
  induction cfgs generalizing ls with
  | nil => simp [loadPluginBatch]
  | cons c rest ih =>
      have hc : (constructP (.config c) .undef none).toOption.isSome = true :=
        hok c (List.mem_cons_self c rest)
      obtain ⟨f, hf⟩ : ∃ f, constructP (.config c) .undef none = .ok f := by
        cases hcp : constructP (.config c) .undef none with
        | ok f => exact ⟨f, rfl⟩
        | error e => rw [hcp] at hc; simp [Except.toOption] at hc
      rcases hcon : PluginFile.construct (.config c) .undef none ls.host with ⟨h1, r⟩
      have hr : r = .ok f := by
        have hs := construct_snd (.config c) .undef none ls.host
        rw [hcon] at hs
        simpa [hf] using hs
      subst hr
      have hsingle : loadPluginSingle ls (.config c) .undef none
          = (addFile { ls with host := h1 } f, none) := by
        simp [loadPluginSingle, hcon]
      have hstep : loadPluginBatch ls (c :: rest)
          = loadPluginBatch (addFile { ls with host := h1 } f) rest := by
        simp [loadPluginBatch, hsingle]
      rw [hstep]
      have hok2 : ∀ c2 ∈ rest, (constructP (.config c2) .undef none).toOption.isSome = true :=
        fun c2 hc2 => hok c2 (List.mem_cons_of_mem c hc2)
      obtain ⟨ih1, ih2, ih3⟩ := ih (addFile { ls with host := h1 } f) hok2
      have hcons : List.filterMap
            (fun c => (constructP (.config c) .undef none).toOption) (c :: rest)
          = f :: List.filterMap
            (fun c => (constructP (.config c) .undef none).toOption) rest := by
        simp [List.filterMap_cons, hf, Except.toOption]
      refine ⟨ih1, ?_, ?_⟩
      · rw [ih2, hcons]
        simp [addFile]
      · rw [hcons]
        simp [ih3]

/-- Witness for C8 on a concrete two-element batch. -/
theorem C8_witness :
    (∀ c ∈ c8cfgs, (constructP (.config c) .undef none).toOption.isSome = true) ∧
    ((loadPluginBatch ls0 c8cfgs).2 = none ∧
     (loadPluginBatch ls0 c8cfgs).1.queue
       = ls0.queue ++ c8cfgs.filterMap (fun c => (constructP (.config c) .undef none).toOption) ∧
     (c8cfgs.filterMap (fun c => (constructP (.config c) .undef none).toOption)).length
       = c8cfgs.length) :=
  ⟨by decide, C8_batch c8cfgs ls0 (by decide)⟩

/-! ### C9 -/

/-- Inversion for the spec-modelled base constructor: a successful
`File.init` pins down the whole resulting unit. -/
theorem File.init_ok (fc : FileConfig) (f : PluginFile)
    (hf : File.init fc = .ok f) :
    ∃ k, fc.key = some k ∧ k ≠ "" ∧
      f = { key := k
            url := match fc.url with
                   | .undef => .str (k ++ "." ++ fc.extension)
                   | u => u
            xhrSettings := fc.xhrSettings
            fileConfig := fc
            state := .FILE_PENDING
            responseText := none
            data := none } := by
  obtain ⟨ty, ca, ex, rt, ky, ur, xh⟩ := fc
  cases ky with
  | none => simp [File.init] at hf
  | some k =>
      by_cases h0 : k = ""
      · simp [File.init, h0] at hf
      · refine ⟨k, rfl, h0, ?_⟩
        simp [File.init, h0] at hf
        exact hf.symm

/-- A successful `File.init` stores the very `fileConfig` it was given. -/
theorem File.init_ok_fileConfig (fc : FileConfig) (f : PluginFile)
    (hf : File.init fc = .ok f) : f.fileConfig = fc := by
  obtain ⟨k, _, _, hfeq⟩ := File.init_ok fc f hf
  rw [hfeq]

/-- Any successfully constructed unit arises from `File.init` applied to a
`fileConfig` with the literal `type`/`cache`/`responseType` fields of source
lines 70-78. -/
theorem construct_ok_init (k : KeyArg) (u : UrlArg) (x : Option Nat) (h : Host)
    (f : PluginFile) (hok : (PluginFile.construct k u x h).2 = .ok f) :
    ∃ fc : FileConfig, fc.type = "script" ∧ fc.cache = false ∧
      fc.responseType = "text" ∧ File.init fc = .ok f := by
  rcases k with _ | s | c
  · rcases u with _ | s2 | v
    · simp only [PluginFile.construct] at hok
      exact ⟨_, rfl, rfl, rfl, hok⟩
    · simp only [PluginFile.construct] at hok
      exact ⟨_, rfl, rfl, rfl, hok⟩
    · rcases v with ⟨id, t⟩ | id | id
      · cases t with
        | false =>
            simp [PluginFile.construct, WVal.isFunction, invokeRegister,
                  winGet_winSet_self] at hok
            exact ⟨_, rfl, rfl, rfl, hok⟩
        | true =>
            simp [PluginFile.construct, WVal.isFunction, invokeRegister,
                  winGet_winSet_self] at hok
      · simp [PluginFile.construct, WVal.isFunction, invokeRegister,
              winGet_winSet_self] at hok
      · simp [PluginFile.construct, WVal.isFunction] at hok
        exact ⟨_, rfl, rfl, rfl, hok⟩
  · rcases u with _ | s2 | v
    · simp only [PluginFile.construct] at hok
      exact ⟨_, rfl, rfl, rfl, hok⟩
    · simp only [PluginFile.construct] at hok
      exact ⟨_, rfl, rfl, rfl, hok⟩
    · rcases v with ⟨id, t⟩ | id | id
      · cases t with
        | false =>
            simp [PluginFile.construct, WVal.isFunction, invokeRegister,
                  winGet_winSet_self] at hok
            exact ⟨_, rfl, rfl, rfl, hok⟩
        | true =>
            simp [PluginFile.construct, WVal.isFunction, invokeRegister,
                  winGet_winSet_self] at hok
      · simp [PluginFile.construct, WVal.isFunction, invokeRegister,
              winGet_winSet_self] at hok
      · simp [PluginFile.construct, WVal.isFunction] at hok
        exact ⟨_, rfl, rfl, rfl, hok⟩
  · rcases hu : c.url with _ | s2 | v
    · simp only [PluginFile.construct, hu] at hok
      exact ⟨_, rfl, rfl, rfl, hok⟩
    · simp only [PluginFile.construct, hu] at hok
      exact ⟨_, rfl, rfl, rfl, hok⟩
    · rcases v with ⟨id, t⟩ | id | id
      · cases t with
        | false =>
            simp [PluginFile.construct, hu, WVal.isFunction, invokeRegister,
                  winGet_winSet_self] at hok
            exact ⟨_, rfl, rfl, rfl, hok⟩
        | true =>
            simp [PluginFile.construct, hu, WVal.isFunction, invokeRegister,
                  winGet_winSet_self] at hok
      · simp [PluginFile.construct, hu, WVal.isFunction, invokeRegister,
              winGet_winSet_self] at hok
      · simp [PluginFile.construct, hu, WVal.isFunction] at hok
        exact ⟨_, rfl, rfl, rfl, hok⟩

/-- C9 (confirmed): every successfully constructed unit — positional form,
configuration form, or the callable short-circuit path — carries a
`fileConfig` with `type = "script"`, `cache = false` and
`responseType = "text"`. -/
theorem C9_fileConfig_literals (k : KeyArg) (u : UrlArg) (x : Option Nat)
    (h : Host) (f : PluginFile)
    (hok : (PluginFile.construct k u x h).2 = .ok f) :
    f.fileConfig.type = "script" ∧ f.fileConfig.cache = false ∧
    f.fileConfig.responseType = "text" := by
  obtain ⟨fc, h1, h2, h3, h4⟩ := construct_ok_init k u x h f hok
  rw [File.init_ok_fileConfig fc f h4]
  exact ⟨h1, h2, h3⟩

/-- Witness for C9 at a concrete positional construction. -/
theorem C9_witness :
    (PluginFile.construct (.str "wk") .undef none host0).2 = .ok c9file ∧
    (c9file.fileConfig.type = "script" ∧ c9file.fileConfig.cache = false ∧
     c9file.fileConfig.responseType = "text") :=
  ⟨by decide, C9_fileConfig_literals (.str "wk") .undef none host0 c9file (by decide)⟩

/-! ### C10 -/

/-- C10 (confirmed): in the positional form (the `key` argument is a plain
string, not a configuration object), the `fileConfig` extension is always the
default `"js"`, so with no url supplied the derived locator is
`key ++ "." ++ "js"`; the `extension` override is only reachable through the
configuration-object branch. -/
theorem C10_positional_extension (s : String) (u : UrlArg) (x : Option Nat)
    (h : Host) (f : PluginFile)
    (hok : (PluginFile.construct (.str s) u x h).2 = .ok f) :
    f.fileConfig.extension = "js" ∧
    (u = .undef → f.url = .str (s ++ "." ++ "js")) := by
  rcases u with _ | s2 | v
  · simp only [PluginFile.construct] at hok
    obtain ⟨k, hkey, hne, hfeq⟩ := File.init_ok _ f hok
    have hks : k = s := by
      simpa using hkey.symm
    subst hks
    exact ⟨by simp [hfeq], fun _ => by simp [hfeq]⟩
  · simp only [PluginFile.construct] at hok
    obtain ⟨k, hkey, hne, hfeq⟩ := File.init_ok _ f hok
    exact ⟨by simp [hfeq], fun hu => by cases hu⟩
  · rcases v with ⟨id, t⟩ | id | id
    · cases t with
      | false =>
          simp [PluginFile.construct, WVal.isFunction, invokeRegister,
                winGet_winSet_self] at hok
          obtain ⟨k, hkey, hne, hfeq⟩ := File.init_ok _ f hok
          exact ⟨by simp [hfeq], fun hu => by cases hu⟩
      | true =>
          simp [PluginFile.construct, WVal.isFunction, invokeRegister,
                winGet_winSet_self] at hok
    · simp [PluginFile.construct, WVal.isFunction, invokeRegister,
            winGet_winSet_self] at hok
    · simp [PluginFile.construct, WVal.isFunction] at hok
      obtain ⟨k, hkey, hne, hfeq⟩ := File.init_ok _ f hok
      exact ⟨by simp [hfeq], fun hu => by cases hu⟩

/-- Witness for C10 at a concrete positional construction with no url. -/
theorem C10_witness :
    (PluginFile.construct (.str "pos") .undef none host0).2 = .ok c10file ∧
    (c10file.fileConfig.extension = "js" ∧
     (UrlArg.undef = UrlArg.undef → c10file.url = .str ("pos" ++ "." ++ "js"))) :=
  ⟨by decide,
   C10_positional_extension "pos" .undef none host0 c10file (by decide)⟩

end Phaser
